import Mathlib

/-!
SuperiorMySqlpp, `prepared_statements/dynamic_storage.hpp`.

A shallow embedding of the dynamic-storage binders of SuperiorMySqlpp and the
properties of `resize()`, `isDynamic` and the constructors.

Conventions of the embedding

* C++ references (`MYSQL_BIND &bind`, `std::string &container`) are embedded by
  carrying the referent inside the binder state: a write through the reference
  is a write to that component.
* Addresses are natural numbers.  `unsigned long` / `size_t` values are natural
  numbers; the code only compares and copies them, it does no arithmetic.
* `assert` comes from `<cassert>`: it is compiled out when `NDEBUG` is defined
  and aborts the program otherwise.  The build flavour is the parameter
  `ndebug`.
* `std::string::resize` / `std::vector::resize` belong to the standard library.
  They are embedded by `Container.resize`, whose storage requests are answered
  by an `Allocator` parameter (so that a failing allocation is representable).
-/

namespace SuperiorMySqlpp

/-! ## Data model -/

/-- An address. -/
abbrev Ptr := Nat

/-- The record `MYSQL_BIND` of the client library header `mysql/mysql.h`.  The
header is not part of this repository; the three fields the binders touch
(`length`, `buffer`, `buffer_length`) are listed together with further fields of
the record, which the binders never name. -/
structure MYSQL_BIND where
  length : Ptr
  is_null : Ptr
  buffer : Ptr
  error : Ptr
  buffer_length : Nat
  buffer_type : Nat
  is_unsigned : Bool
  deriving DecidableEq, Repr

/-- A standard contiguous container (`std::string`, `std::vector<ValueType>`):
the address returned by `data()` and the elements, `size()` being their
number. -/
structure Container (α : Type) where
  data : Ptr
  elems : List α
  deriving DecidableEq, Repr

/-- The member `size()`. -/
def Container.size {α : Type} (c : Container α) : Nat := c.elems.length

/-- Number of bytes of the range `[data(), data() + size())` for elements of
width `w = sizeof(ValueType)`. -/
def Container.storageBytes {α : Type} (w : Nat) (c : Container α) : Nat := c.size * w

/-- Exceptions the standard container can throw from `resize`. -/
inductive StdException
  | length_error
  | bad_alloc
  deriving DecidableEq, Repr

/-- What the container gets from its allocator.  `max_size` is the member
`max_size()`; `grow data size n` answers the request to extend the storage at
`data`, holding `size` elements, to `n > size` elements: the address of the
storage afterwards (equal to `data` when the reserved capacity suffices), or
`none` when the allocation fails (`std::bad_alloc`). -/
structure Allocator where
  max_size : Nat
  grow : Ptr → Nat → Nat → Option Ptr

/-- The member `resize(n)` of `std::string` and `std::vector`.  For `n ≤ size()`
the tail is erased and the storage kept; otherwise `n - size()` value-initialised
elements `fill` are appended, after the length check against `max_size()` and
the storage request.  A throwing call leaves the container as it was. -/
def Container.resize {α : Type} (A : Allocator) (fill : α) (c : Container α) (n : Nat) :
    Except StdException (Container α) :=
  if n ≤ c.size then
    .ok { c with elems := c.elems.take n }
  else if A.max_size < n then
    .error .length_error
  else
    match A.grow c.data c.size n with
    | none => .error .bad_alloc
    | some p => .ok { data := p, elems := c.elems ++ List.replicate (n - c.size) fill }

/-- The allocator can serve `resize(n)` on `c`: nothing is requested, or the
length check passes and the storage request is answered. -/
def Allocator.serves {α : Type} (A : Allocator) (c : Container α) (n : Nat) : Prop :=
  n ≤ c.size ∨ (n ≤ A.max_size ∧ (A.grow c.data c.size n).isSome = true)

instance {α : Type} (A : Allocator) (c : Container α) (n : Nat) : Decidable (A.serves c n) := by
  unfold Allocator.serves
  exact inferInstance

/-- How a call of a member function ends: it returns a `bool`, the program is
aborted by a failed `assert`, or an exception leaves the function.  Each case
carries the state at that point. -/
inductive Outcome (σ : Type) where
  | returned (value : Bool) (post : σ)
  | aborted (post : σ)
  | threw (e : StdException) (post : σ)
  deriving DecidableEq, Repr

/-- The macro `assert(cond)` of `<cassert>`: it lets execution continue when
`NDEBUG` is defined (the condition is not evaluated) or when the condition
holds. -/
def assertPasses (ndebug : Bool) (cond : Bool) : Bool := ndebug || cond

/-- The C++ operator `!` applied to an `int`: the operand is converted to `bool`
(non-zero is `true`) and negated. -/
def notInt (n : Int) : Bool := !(decide (n ≠ 0))

/-! ## `DynamicStorageBase` -/

/-- The class `DynamicStorageBase`: the referent of `MYSQL_BIND &bind` and the
member `column_length`. -/
structure DynamicStorageBase where
  bind : MYSQL_BIND
  column_length : Nat
  deriving DecidableEq, Repr

/-- The constructor `DynamicStorageBase(MYSQL_BIND &_bind)`.  `addrColumnLength`
is the address `&column_length` of the member in the object under construction;
`indeterminate` is the value the uninitialised member `column_length` happens to
hold. -/
def DynamicStorageBase.ctor (addrColumnLength : Ptr) (indeterminate : Nat) (_bind : MYSQL_BIND) :
    DynamicStorageBase :=
  { bind := { _bind with length := addrColumnLength }, column_length := indeterminate }

/-! ## Template selection and `isDynamic` -/

/-- Types a `DynamicStorage<T>` can be instantiated with: `std::string`,
`std::vector<ValueType>`, and any other type (identified by a number). -/
inductive CppType
  | std_string
  | std_vector (ValueType : CppType)
  | other (id : Nat)
  deriving DecidableEq, Repr

/-- The three definitions of `DynamicStorage`. -/
inductive Specialization
  | primary
  | string
  | vector
  deriving DecidableEq, Repr

/-- Which definition `DynamicStorage<T>` names: the full specialisation for
`std::string`, the specialisation for `std::vector<ValueType>`, else the
primary template. -/
def selectSpecialization : CppType → Specialization
  | .std_string => .string
  | .std_vector _ => .vector
  | .other _ => .primary

/-- The static member `isDynamic` of each definition. -/
def Specialization.isDynamic : Specialization → Bool
  | .primary => false
  | .string => true
  | .vector => true

/-- The constant `DynamicStorage<T>::isDynamic`. -/
def isDynamic (T : CppType) : Bool := (selectSpecialization T).isDynamic

/-! ## Primary template `DynamicStorage<T>` -/

/-- The primary template `DynamicStorage<T>` adds no member to its base. -/
structure DynamicStorageT where
  base : DynamicStorageBase
  deriving DecidableEq, Repr

/-- The constructor `DynamicStorage<T>(T &, MYSQL_BIND &_bind)`: the unnamed
first argument is not used.  The result pairs the binder with the argument
object as it is after the call. -/
def DynamicStorageT.ctor {T : Type} (addrColumnLength : Ptr) (indeterminate : Nat)
    (arg : T) (_bind : MYSQL_BIND) : DynamicStorageT × T :=
  ({ base := DynamicStorageBase.ctor addrColumnLength indeterminate _bind }, arg)

/-- The member `resize()` of the primary template: `return !!!42;`. -/
def DynamicStorageT.resize (s : DynamicStorageT) : Outcome DynamicStorageT :=
  .returned (!(!(notInt 42))) s

/-! ## `DynamicStorage<std::string>` -/

/-- The specialisation `DynamicStorage<std::string>`: the base and the referent
of `std::string &container`. -/
structure DynamicStorageString where
  base : DynamicStorageBase
  container : Container Char
  deriving DecidableEq, Repr

/-- The value-initialised `char`. -/
def nul : Char := Char.ofNat 0

/-- The constructor `DynamicStorage<std::string>(std::string &_container,
MYSQL_BIND &_bind)`. -/
def DynamicStorageString.ctor (addrColumnLength : Ptr) (indeterminate : Nat)
    (_container : Container Char) (_bind : MYSQL_BIND) : DynamicStorageString :=
  { base := DynamicStorageBase.ctor addrColumnLength indeterminate _bind, container := _container }

/-- The cast `const_cast<char *>(p)`: the address is unchanged. -/
def const_cast (p : Ptr) : Ptr := p

/-- The member `resize()` of `DynamicStorage<std::string>`. -/
def DynamicStorageString.resize (ndebug : Bool) (A : Allocator) (s : DynamicStorageString) :
    Outcome DynamicStorageString :=
  -- assert(column_length > bind.buffer_length);
  if assertPasses ndebug (decide (s.base.column_length > s.base.bind.buffer_length)) = false then
    .aborted s
  else
    -- container.resize(column_length);
    match s.container.resize A nul s.base.column_length with
    | .error e => .threw e s
    | .ok c =>
      let s1 : DynamicStorageString := { s with container := c }
      -- bind.buffer = const_cast<char *>(container.data());
      let s2 : DynamicStorageString :=
        { s1 with base := { s1.base with bind := { s1.base.bind with
            buffer := const_cast s1.container.data } } }
      -- bind.buffer_length = column_length;
      let s3 : DynamicStorageString :=
        { s2 with base := { s2.base with bind := { s2.base.bind with
            buffer_length := s2.base.column_length } } }
      -- return true;
      .returned true s3

/-! ## `DynamicStorage<std::vector<ValueType>>` -/

/-- The specialisation `DynamicStorage<std::vector<ValueType>>`: the base and
the referent of `std::vector<ValueType> &container`. -/
structure DynamicStorageVector (ValueType : Type) where
  base : DynamicStorageBase
  container : Container ValueType
  deriving DecidableEq, Repr

/-- The constructor `DynamicStorage<std::vector<ValueType>>(std::vector<ValueType>
&_container, MYSQL_BIND &_bind)`. -/
def DynamicStorageVector.ctor {ValueType : Type} (addrColumnLength : Ptr) (indeterminate : Nat)
    (_container : Container ValueType) (_bind : MYSQL_BIND) : DynamicStorageVector ValueType :=
  { base := DynamicStorageBase.ctor addrColumnLength indeterminate _bind, container := _container }

/-- The member `resize()` of `DynamicStorage<std::vector<ValueType>>`; `vinit` is
the value-initialised `ValueType()` that `std::vector::resize` appends. -/
def DynamicStorageVector.resize {ValueType : Type} (ndebug : Bool) (A : Allocator)
    (vinit : ValueType) (s : DynamicStorageVector ValueType) :
    Outcome (DynamicStorageVector ValueType) :=
  -- assert(column_length > bind.buffer_length);
  if assertPasses ndebug (decide (s.base.column_length > s.base.bind.buffer_length)) = false then
    .aborted s
  else
    -- container.resize(column_length);
    match s.container.resize A vinit s.base.column_length with
    | .error e => .threw e s
    | .ok c =>
      let s1 : DynamicStorageVector ValueType := { s with container := c }
      -- bind.buffer = container.data();
      let s2 : DynamicStorageVector ValueType :=
        { s1 with base := { s1.base with bind := { s1.base.bind with
            buffer := s1.container.data } } }
      -- bind.buffer_length = column_length;
      let s3 : DynamicStorageVector ValueType :=
        { s2 with base := { s2.base with bind := { s2.base.bind with
            buffer_length := s2.base.column_length } } }
      -- return true;
      .returned true s3

/-! ## Sample states -/

/-- A heap that always finds room: the grown storage is placed at address
`data + 4096`. -/
def roomyAllocator : Allocator :=
  { max_size := 2 ^ 62, grow := fun data _ _ => some (data + 4096) }

/-- A heap with no room left. -/
def fullAllocator : Allocator :=
  { max_size := 2 ^ 62, grow := fun _ _ _ => none }

/-- A binding with an empty buffer, as at bind setup of a dynamic column. -/
def emptyBind : MYSQL_BIND :=
  { length := 500, is_null := 0, buffer := 0, error := 0, buffer_length := 0,
    buffer_type := 253, is_unsigned := false }

/-- A text column at bind setup with capacity 0, after a fetch reported the
actual length 12. -/
def textTruncated : DynamicStorageString :=
  { base := { bind := emptyBind, column_length := 12 },
    container := { data := 1000, elems := [] } }

/-- The state reached from `textTruncated` by one `resize()`. -/
def textRebound : DynamicStorageString :=
  { base := { bind := { emptyBind with buffer := 5096, buffer_length := 12 },
              column_length := 12 },
    container := { data := 5096, elems := List.replicate 12 nul } }

/-- A text column bound with capacity 5 over the string `hello`, after a fetch
reported the actual length 3 (no truncation). -/
def textFitting : DynamicStorageString :=
  { base := { bind := { emptyBind with buffer := 1000, buffer_length := 5 },
              column_length := 3 },
    container := { data := 1000, elems := ['h', 'e', 'l', 'l', 'o'] } }

/-- The state `textFitting` with the string cut to `hel` and the capacity
set to 3. -/
def textFittingCut : DynamicStorageString :=
  { base := { bind := { emptyBind with buffer := 1000, buffer_length := 3 },
              column_length := 3 },
    container := { data := 1000, elems := ['h', 'e', 'l'] } }

/-- A text column whose string holds 8 characters while the binding still
records capacity 2, after a fetch reported the actual length 5. -/
def textOversized : DynamicStorageString :=
  { base := { bind := { emptyBind with buffer := 1000, buffer_length := 2 },
              column_length := 5 },
    container := { data := 1000, elems := ['a', 'b', 'c', 'd', 'e', 'f', 'g', 'h'] } }

/-- A byte-sequence column with capacity 2 over the bytes `7, 9`, after a fetch
reported the actual length 4. -/
def bytesTruncated : DynamicStorageVector Nat :=
  { base := { bind := { emptyBind with buffer := 2000, buffer_length := 2, buffer_type := 252 },
              column_length := 4 },
    container := { data := 2000, elems := [7, 9] } }

/-- The state reached from `bytesTruncated` by one `resize()`. -/
def bytesRebound : DynamicStorageVector Nat :=
  { base := { bind := { emptyBind with buffer := 6096, buffer_length := 4, buffer_type := 252 },
              column_length := 4 },
    container := { data := 6096, elems := [7, 9, 0, 0] } }

/-- A byte-sequence column with capacity 10 holding 10 bytes, after a fetch
reported the actual length 10 (no truncation). -/
def bytesFitting : DynamicStorageVector Nat :=
  { base := { bind := { emptyBind with buffer := 2000, buffer_length := 10, buffer_type := 252 },
              column_length := 10 },
    container := { data := 2000, elems := List.replicate 10 1 } }

/-! ## Lemmas on the container -/

theorem container_resize_size {α : Type} (A : Allocator) (fill : α) (c c1 : Container α)
    (n : Nat) (h : c.resize A fill n = .ok c1) : c1.size = n := by
  unfold Container.resize at h
  split at h
  · rename_i hle
    cases h
    simp only [Container.size] at hle ⊢
    simp [List.length_take, hle]
  · rename_i hlt
    split at h
    · cases h
    · split at h
      · cases h
      · cases h
        simp only [Container.size] at hlt ⊢
        simp only [List.length_append, List.length_replicate]
        omega

theorem container_resize_serves {α : Type} (A : Allocator) (fill : α) (c : Container α)
    (n : Nat) (h : A.serves c n) : ∃ c1, c.resize A fill n = .ok c1 := by
  unfold Container.resize
  rcases h with h | ⟨hmax, hgrow⟩
  · simp [h]
  · by_cases hle : n ≤ c.size
    · simp [hle]
    · have hnot : ¬ A.max_size < n := by omega
      obtain ⟨p, hp⟩ := Option.isSome_iff_exists.mp hgrow
      simp [hle, hnot, hp]

theorem container_resize_keeps {α : Type} (A : Allocator) (fill : α) (c c1 : Container α)
    (n : Nat) (hge : c.size ≤ n) (h : c.resize A fill n = .ok c1) :
    c1.elems.take c.size = c.elems := by
  unfold Container.resize at h
  split at h
  · rename_i hle
    cases h
    have heq : n = c.elems.length := by
      simp only [Container.size] at hle hge
      omega
    simp [Container.size, heq]
  · split at h
    · cases h
    · split at h
      · cases h
      · cases h
        simp [Container.size]

/-! ## Lemmas on `resize()` -/

theorem string_resize_ok (ndebug : Bool) (A : Allocator)
    (s : DynamicStorageString) (c : Container Char)
    (hpass : assertPasses ndebug (decide (s.base.column_length > s.base.bind.buffer_length)) = true)
    (hc : s.container.resize A nul s.base.column_length = .ok c) :
    s.resize ndebug A = .returned true
      { base := { bind := { s.base.bind with buffer := c.data,
                                             buffer_length := s.base.column_length },
                  column_length := s.base.column_length },
        container := c } := by
  unfold DynamicStorageString.resize
  simp [hpass, hc, const_cast]

theorem string_resize_abort (A : Allocator) (s : DynamicStorageString)
    (h : s.base.column_length ≤ s.base.bind.buffer_length) :
    s.resize false A = .aborted s := by
  unfold DynamicStorageString.resize
  have : ¬ s.base.bind.buffer_length < s.base.column_length := by omega
  simp [assertPasses, this]

theorem vector_resize_ok {V : Type} (ndebug : Bool) (A : Allocator) (vinit : V)
    (s : DynamicStorageVector V) (c : Container V)
    (hpass : assertPasses ndebug (decide (s.base.column_length > s.base.bind.buffer_length)) = true)
    (hc : s.container.resize A vinit s.base.column_length = .ok c) :
    s.resize ndebug A vinit = .returned true
      { base := { bind := { s.base.bind with buffer := c.data,
                                             buffer_length := s.base.column_length },
                  column_length := s.base.column_length },
        container := c } := by
  unfold DynamicStorageVector.resize
  simp [hpass, hc]

theorem vector_resize_abort {V : Type} (A : Allocator) (vinit : V)
    (s : DynamicStorageVector V)
    (h : s.base.column_length ≤ s.base.bind.buffer_length) :
    s.resize false A vinit = .aborted s := by
  unfold DynamicStorageVector.resize
  have : ¬ s.base.bind.buffer_length < s.base.column_length := by omega
  simp [assertPasses, this]

theorem assertPasses_of_gt (ndebug : Bool) (a b : Nat) (h : a > b) :
    assertPasses ndebug (decide (a > b)) = true := by
  simp [assertPasses, h]

theorem container_resize_throws {α : Type} (A : Allocator) (fill : α) (c : Container α)
    (n : Nat) (h : ¬ A.serves c n) : ∃ e, c.resize A fill n = .error e := by
  unfold Allocator.serves at h
  unfold Container.resize
  push_neg at h
  obtain ⟨hlt, hrest⟩ := h
  have hle : ¬ n ≤ c.size := by omega
  by_cases hmax : A.max_size < n
  · exact ⟨.length_error, by simp [hle, hmax]⟩
  · have hnone : A.grow c.data c.size n = none := by
      have := hrest (by omega)
      cases hg : A.grow c.data c.size n with
      | none => rfl
      | some p => simp [hg] at this
    exact ⟨.bad_alloc, by simp [hle, hmax, hnone]⟩

theorem string_resize_cases (ndebug : Bool) (A : Allocator)
    (s : DynamicStorageString) :
    (ndebug = false ∧ s.base.column_length ≤ s.base.bind.buffer_length ∧
      s.resize ndebug A = .aborted s) ∨
    (¬ A.serves s.container s.base.column_length ∧ ∃ e, s.resize ndebug A = .threw e s) ∨
    (A.serves s.container s.base.column_length ∧ ∃ post, s.resize ndebug A = .returned true post) := by
  by_cases hpass :
      assertPasses ndebug (decide (s.base.column_length > s.base.bind.buffer_length)) = true
  · right
    by_cases hserves : A.serves s.container s.base.column_length
    · right
      obtain ⟨c, hc⟩ := container_resize_serves A nul s.container _ hserves
      exact ⟨hserves, _, string_resize_ok ndebug A s c hpass hc⟩
    · left
      obtain ⟨e, he⟩ := container_resize_throws A nul s.container _ hserves
      exact ⟨hserves, e, by unfold DynamicStorageString.resize; simp [hpass, he]⟩
  · left
    have hnd : ndebug = false := by
      cases ndebug with
      | false => rfl
      | true => simp [assertPasses] at hpass
    have hle : s.base.column_length ≤ s.base.bind.buffer_length := by
      subst hnd
      simp [assertPasses] at hpass
      exact hpass
    subst hnd
    exact ⟨rfl, hle, string_resize_abort A s hle⟩

theorem vector_resize_cases {V : Type} (ndebug : Bool) (A : Allocator)
    (vinit : V) (s : DynamicStorageVector V) :
    (ndebug = false ∧ s.base.column_length ≤ s.base.bind.buffer_length ∧
      s.resize ndebug A vinit = .aborted s) ∨
    (¬ A.serves s.container s.base.column_length ∧ ∃ e, s.resize ndebug A vinit = .threw e s) ∨
    (A.serves s.container s.base.column_length ∧ ∃ post, s.resize ndebug A vinit = .returned true post) := by
  by_cases hpass :
      assertPasses ndebug (decide (s.base.column_length > s.base.bind.buffer_length)) = true
  · right
    by_cases hserves : A.serves s.container s.base.column_length
    · right
      obtain ⟨c, hc⟩ := container_resize_serves A vinit s.container _ hserves
      exact ⟨hserves, _, vector_resize_ok ndebug A vinit s c hpass hc⟩
    · left
      obtain ⟨e, he⟩ := container_resize_throws A vinit s.container _ hserves
      exact ⟨hserves, e, by unfold DynamicStorageVector.resize; simp [hpass, he]⟩
  · left
    have hnd : ndebug = false := by
      cases ndebug with
      | false => rfl
      | true => simp [assertPasses] at hpass
    have hle : s.base.column_length ≤ s.base.bind.buffer_length := by
      subst hnd
      simp [assertPasses] at hpass
      exact hpass
    subst hnd
    exact ⟨rfl, hle, vector_resize_abort A vinit s hle⟩

/-! ## Growth and rebinding -/

/-- C1: for both dynamic backings, in every state with `column_length >
bind.buffer_length` (and a heap that serves the request), `resize()` returns
`true` and afterwards the container's size is `column_length`,
`bind.buffer_length` is `column_length` and `bind.buffer` is the `data()` of the
resized container. -/
theorem resize_grows_and_rebinds :
    (∀ (ndebug : Bool) (A : Allocator) (s : DynamicStorageString),
      s.base.column_length > s.base.bind.buffer_length →
      A.serves s.container s.base.column_length →
      ∃ post, s.resize ndebug A = .returned true post ∧
        post.container.size = s.base.column_length ∧
        post.base.bind.buffer_length = s.base.column_length ∧
        post.base.bind.buffer = post.container.data) ∧
    (∀ (V : Type) (ndebug : Bool) (A : Allocator) (vinit : V) (s : DynamicStorageVector V),
      s.base.column_length > s.base.bind.buffer_length →
      A.serves s.container s.base.column_length →
      ∃ post, s.resize ndebug A vinit = .returned true post ∧
        post.container.size = s.base.column_length ∧
        post.base.bind.buffer_length = s.base.column_length ∧
        post.base.bind.buffer = post.container.data) := by
  constructor
  · intro ndebug A s hgt hserves
    obtain ⟨c, hc⟩ := container_resize_serves A nul s.container _ hserves
    refine ⟨_, string_resize_ok ndebug A s c (assertPasses_of_gt _ _ _ hgt) hc,
      ?_, rfl, rfl⟩
    exact container_resize_size A nul s.container c _ hc
  · intro V ndebug A vinit s hgt hserves
    obtain ⟨c, hc⟩ := container_resize_serves A vinit s.container _ hserves
    refine ⟨_, vector_resize_ok ndebug A vinit s c
      (assertPasses_of_gt _ _ _ hgt) hc, ?_, rfl, rfl⟩
    exact container_resize_size A vinit s.container c _ hc

/-- Instance of C1 at the text column with capacity 0 and reported length 12. -/
theorem resize_grows_and_rebinds_witness :
    textTruncated.base.column_length > textTruncated.base.bind.buffer_length ∧
    roomyAllocator.serves textTruncated.container textTruncated.base.column_length ∧
    ∃ post, textTruncated.resize false roomyAllocator = .returned true post ∧
      post.container.size = textTruncated.base.column_length ∧
      post.base.bind.buffer_length = textTruncated.base.column_length ∧
      post.base.bind.buffer = post.container.data :=
  ⟨by decide, by decide,
    resize_grows_and_rebinds.1 false roomyAllocator textTruncated (by decide) (by decide)⟩

/-! ## The precondition check -/

/-- C2, as stated, fails: in a build with `NDEBUG` the assertion is compiled
out, and on a state with `column_length ≤ bind.buffer_length` (text: 3 ≤ 5,
bytes: 10 ≤ 10) `resize()` returns `true`; the text container is cut from 5 to 3
characters and `bind.buffer_length` is overwritten with 3. -/
theorem resize_unchecked_with_ndebug :
    textFitting.base.column_length ≤ textFitting.base.bind.buffer_length ∧
    textFitting.resize true roomyAllocator = .returned true textFittingCut ∧
    textFittingCut.container.size = 3 ∧ textFitting.container.size = 5 ∧
    textFittingCut.base.bind.buffer_length = 3 ∧ textFitting.base.bind.buffer_length = 5 ∧
    bytesFitting.base.column_length ≤ bytesFitting.base.bind.buffer_length ∧
    bytesFitting.resize true roomyAllocator 0 = .returned true bytesFitting := by
  decide

/-- C2 amended: in a build with assertions enabled, for both dynamic backings
and every state with `column_length ≤ bind.buffer_length`, `resize()` fails its
assertion and the program is aborted with the container and the binding as they
were before the call. -/
theorem resize_asserts_growth :
    (∀ (A : Allocator) (s : DynamicStorageString),
      s.base.column_length ≤ s.base.bind.buffer_length →
      s.resize false A = .aborted s) ∧
    (∀ (V : Type) (A : Allocator) (vinit : V) (s : DynamicStorageVector V),
      s.base.column_length ≤ s.base.bind.buffer_length →
      s.resize false A vinit = .aborted s) :=
  ⟨fun A s h => string_resize_abort A s h,
   fun _ A vinit s h => vector_resize_abort A vinit s h⟩

/-- Instance of the amended C2 at the byte column with capacity 10 and reported
length 10. -/
theorem resize_asserts_growth_witness :
    bytesFitting.base.column_length ≤ bytesFitting.base.bind.buffer_length ∧
    bytesFitting.resize false roomyAllocator 0 = .aborted bytesFitting :=
  ⟨by decide, resize_asserts_growth.2 Nat roomyAllocator 0 bytesFitting (by decide)⟩

/-! ## The primary template -/

/-- C3: `resize()` of the primary template `DynamicStorage<T>` returns `false`,
the value that does not stand for success, in every state, and the state after
the call (binding with its buffer address, `buffer_length` and length slot, and
`column_length`) is the state before it. -/
theorem primary_resize_fails_without_effect (s : DynamicStorageT) :
    s.resize = .returned false s ∧
    (∀ post, s.resize ≠ .returned true post) := by
  have h : s.resize = .returned false s := by
    unfold DynamicStorageT.resize
    have : (!(!(notInt 42))) = false := by decide
    rw [this]
  refine ⟨h, ?_⟩
  intro post hpost
  rw [h] at hpost
  cases hpost

/-! ## The capability flag -/

/-- C4: `isDynamic` is a function of the backing type alone; it is `true` for
`std::string` and for every `std::vector<ValueType>`, and `false` for every
other type. -/
theorem isDynamic_by_backing :
    isDynamic .std_string = true ∧
    (∀ V, isDynamic (.std_vector V) = true) ∧
    (∀ id, isDynamic (.other id) = false) ∧
    (∀ T, isDynamic T = true ↔ (T = .std_string ∨ ∃ V, T = .std_vector V)) := by
  refine ⟨rfl, fun _ => rfl, fun _ => rfl, ?_⟩
  intro T
  cases T with
  | std_string => simp [isDynamic, selectSpecialization, Specialization.isDynamic]
  | std_vector V => simp [isDynamic, selectSpecialization, Specialization.isDynamic]
  | other id => simp [isDynamic, selectSpecialization, Specialization.isDynamic]

/-! ## Calling `resize()` twice -/

/-- C5, as stated, fails: in a build with `NDEBUG` the second `resize()` with the
same `column_length` is a success that changes nothing.  From the text column
with capacity 0 and reported length 12 the first call returns `true` and yields
`textRebound`; the second call on `textRebound` returns `true` again and yields
`textRebound`. -/
theorem second_resize_succeeds_with_ndebug :
    textTruncated.base.column_length > textTruncated.base.bind.buffer_length ∧
    textTruncated.resize true roomyAllocator = .returned true textRebound ∧
    textRebound.resize true roomyAllocator = .returned true textRebound ∧
    bytesTruncated.resize true roomyAllocator 0 = .returned true bytesRebound ∧
    bytesRebound.resize true roomyAllocator 0 = .returned true bytesRebound := by
  decide

/-- C5 amended: for both dynamic backings and every state in which a first
`resize()` succeeds (`column_length > bind.buffer_length`, request served), the
state after it has the same `column_length` and `bind.buffer_length ==
column_length`, so the precondition no longer holds; in a build with assertions
enabled a second `resize()` then fails the assertion and aborts, leaving that
state as it is. -/
theorem second_resize_fails_assertion :
    (∀ (ndebug : Bool) (A : Allocator) (s : DynamicStorageString),
      s.base.column_length > s.base.bind.buffer_length →
      A.serves s.container s.base.column_length →
      ∃ post, s.resize ndebug A = .returned true post ∧
        post.base.column_length = s.base.column_length ∧
        post.base.bind.buffer_length = post.base.column_length ∧
        ¬ (post.base.column_length > post.base.bind.buffer_length) ∧
        (ndebug = false → post.resize ndebug A = .aborted post)) ∧
    (∀ (V : Type) (ndebug : Bool) (A : Allocator) (vinit : V) (s : DynamicStorageVector V),
      s.base.column_length > s.base.bind.buffer_length →
      A.serves s.container s.base.column_length →
      ∃ post, s.resize ndebug A vinit = .returned true post ∧
        post.base.column_length = s.base.column_length ∧
        post.base.bind.buffer_length = post.base.column_length ∧
        ¬ (post.base.column_length > post.base.bind.buffer_length) ∧
        (ndebug = false → post.resize ndebug A vinit = .aborted post)) := by
  constructor
  · intro ndebug A s hgt hserves
    obtain ⟨c, hc⟩ := container_resize_serves A nul s.container _ hserves
    refine ⟨_, string_resize_ok ndebug A s c (assertPasses_of_gt _ _ _ hgt) hc,
      rfl, rfl, ?_, ?_⟩
    · simp
    · intro hnd
      subst hnd
      exact string_resize_abort A _ (Nat.le_refl _)
  · intro V ndebug A vinit s hgt hserves
    obtain ⟨c, hc⟩ := container_resize_serves A vinit s.container _ hserves
    refine ⟨_, vector_resize_ok ndebug A vinit s c
      (assertPasses_of_gt _ _ _ hgt) hc, rfl, rfl, ?_, ?_⟩
    · simp
    · intro hnd
      subst hnd
      exact vector_resize_abort A vinit _ (Nat.le_refl _)

/-- Instance of the amended C5 at the text column with capacity 0 and reported
length 12, assertions enabled. -/
theorem second_resize_fails_assertion_witness :
    textTruncated.base.column_length > textTruncated.base.bind.buffer_length ∧
    roomyAllocator.serves textTruncated.container textTruncated.base.column_length ∧
    ∃ post, textTruncated.resize false roomyAllocator = .returned true post ∧
      post.base.column_length = textTruncated.base.column_length ∧
      post.base.bind.buffer_length = post.base.column_length ∧
      ¬ (post.base.column_length > post.base.bind.buffer_length) ∧
      (false = false → post.resize false roomyAllocator = .aborted post) :=
  ⟨by decide, by decide,
    second_resize_fails_assertion.1 false roomyAllocator textTruncated (by decide) (by decide)⟩

/-! ## The returned value -/

/-- C6, as stated, fails: there is no state, heap or build in which `resize()` of
a dynamic backing returns a value other than `true`.  Where the call does not
succeed it does not return: with assertions enabled and no truncation (text,
length 3, capacity 5) the program is aborted, and on a heap with no room (text,
length 12, capacity 0) `std::bad_alloc` leaves the function. -/
theorem resize_never_returns_false :
    (¬ ∃ (ndebug : Bool) (A : Allocator) (s post : DynamicStorageString),
      s.resize ndebug A = .returned false post) ∧
    (¬ ∃ (V : Type) (ndebug : Bool) (A : Allocator) (vinit : V)
        (s post : DynamicStorageVector V),
      s.resize ndebug A vinit = .returned false post) ∧
    textFitting.resize false roomyAllocator = .aborted textFitting ∧
    textTruncated.resize false fullAllocator = .threw .bad_alloc textTruncated ∧
    textTruncated.resize true fullAllocator = .threw .bad_alloc textTruncated := by
  refine ⟨?_, ?_, by decide, by decide, by decide⟩
  · rintro ⟨ndebug, A, s, post, h⟩
    rcases string_resize_cases ndebug A s with ⟨_, _, h1⟩ | ⟨_, e, h1⟩ | ⟨_, q, h1⟩ <;>
      · rw [h1] at h
        cases h
  · rintro ⟨V, ndebug, A, vinit, s, post, h⟩
    rcases vector_resize_cases ndebug A vinit s with
      ⟨_, _, h1⟩ | ⟨_, e, h1⟩ | ⟨_, q, h1⟩ <;>
      · rw [h1] at h
        cases h

/-- C6 amended: `resize()` of a dynamic backing ends in one of three ways, and
the returned `bool` tells nothing apart: it fails its assertion (assertions
enabled and `column_length ≤ bind.buffer_length`) and aborts with the state
untouched; or the container's `resize` cannot be served and its exception leaves
the function with the state untouched; or the request is served and the call
returns, and then the value is `true`. -/
theorem resize_outcomes :
    (∀ (ndebug : Bool) (A : Allocator) (s : DynamicStorageString),
      (ndebug = false ∧ s.base.column_length ≤ s.base.bind.buffer_length ∧
        s.resize ndebug A = .aborted s) ∨
      (¬ A.serves s.container s.base.column_length ∧
        ∃ e, s.resize ndebug A = .threw e s) ∨
      (A.serves s.container s.base.column_length ∧
        ∃ post, s.resize ndebug A = .returned true post)) ∧
    (∀ (V : Type) (ndebug : Bool) (A : Allocator) (vinit : V) (s : DynamicStorageVector V),
      (ndebug = false ∧ s.base.column_length ≤ s.base.bind.buffer_length ∧
        s.resize ndebug A vinit = .aborted s) ∨
      (¬ A.serves s.container s.base.column_length ∧
        ∃ e, s.resize ndebug A vinit = .threw e s) ∨
      (A.serves s.container s.base.column_length ∧
        ∃ post, s.resize ndebug A vinit = .returned true post)) :=
  ⟨fun ndebug A s => string_resize_cases ndebug A s,
   fun _ ndebug A vinit s => vector_resize_cases ndebug A vinit s⟩

/-! ## Frame of `resize()` -/

/-- C7: for both dynamic backings and every state satisfying the precondition
(request served), `resize()` returns `true` and the binding afterwards is the
binding before with only `buffer` and `buffer_length` rewritten; the length slot
`bind.length`, the other fields of the binding and `column_length` keep their
values. -/
theorem resize_frame :
    (∀ (ndebug : Bool) (A : Allocator) (s : DynamicStorageString),
      s.base.column_length > s.base.bind.buffer_length →
      A.serves s.container s.base.column_length →
      ∃ post, s.resize ndebug A = .returned true post ∧
        post.base.bind = { s.base.bind with buffer := post.container.data,
                                            buffer_length := s.base.column_length } ∧
        post.base.bind.length = s.base.bind.length ∧
        post.base.bind.is_null = s.base.bind.is_null ∧
        post.base.bind.error = s.base.bind.error ∧
        post.base.bind.buffer_type = s.base.bind.buffer_type ∧
        post.base.bind.is_unsigned = s.base.bind.is_unsigned ∧
        post.base.column_length = s.base.column_length) ∧
    (∀ (V : Type) (ndebug : Bool) (A : Allocator) (vinit : V) (s : DynamicStorageVector V),
      s.base.column_length > s.base.bind.buffer_length →
      A.serves s.container s.base.column_length →
      ∃ post, s.resize ndebug A vinit = .returned true post ∧
        post.base.bind = { s.base.bind with buffer := post.container.data,
                                            buffer_length := s.base.column_length } ∧
        post.base.bind.length = s.base.bind.length ∧
        post.base.bind.is_null = s.base.bind.is_null ∧
        post.base.bind.error = s.base.bind.error ∧
        post.base.bind.buffer_type = s.base.bind.buffer_type ∧
        post.base.bind.is_unsigned = s.base.bind.is_unsigned ∧
        post.base.column_length = s.base.column_length) := by
  constructor
  · intro ndebug A s hgt hserves
    obtain ⟨c, hc⟩ := container_resize_serves A nul s.container _ hserves
    exact ⟨_, string_resize_ok ndebug A s c (assertPasses_of_gt _ _ _ hgt) hc,
      rfl, rfl, rfl, rfl, rfl, rfl, rfl⟩
  · intro V ndebug A vinit s hgt hserves
    obtain ⟨c, hc⟩ := container_resize_serves A vinit s.container _ hserves
    exact ⟨_, vector_resize_ok ndebug A vinit s c
      (assertPasses_of_gt _ _ _ hgt) hc, rfl, rfl, rfl, rfl, rfl, rfl, rfl⟩

/-- Instance of C7 at the byte column with capacity 2 and reported length 4. -/
theorem resize_frame_witness :
    bytesTruncated.base.column_length > bytesTruncated.base.bind.buffer_length ∧
    roomyAllocator.serves bytesTruncated.container bytesTruncated.base.column_length ∧
    ∃ post, bytesTruncated.resize false roomyAllocator 0 = .returned true post ∧
      post.base.bind = { bytesTruncated.base.bind with
        buffer := post.container.data,
        buffer_length := bytesTruncated.base.column_length } ∧
      post.base.bind.length = bytesTruncated.base.bind.length ∧
      post.base.bind.is_null = bytesTruncated.base.bind.is_null ∧
      post.base.bind.error = bytesTruncated.base.bind.error ∧
      post.base.bind.buffer_type = bytesTruncated.base.bind.buffer_type ∧
      post.base.bind.is_unsigned = bytesTruncated.base.bind.is_unsigned ∧
      post.base.column_length = bytesTruncated.base.column_length :=
  ⟨by decide, by decide,
    resize_frame.2 Nat false roomyAllocator 0 bytesTruncated (by decide) (by decide)⟩

/-! ## Size of the rebound storage -/

/-- C8: after a successful `resize()` the storage behind the rebound buffer is
at least as large, in bytes, as `bind.buffer_length`: for the text backing it is
`column_length` characters of one byte, and for a vector of elements of width
`w ≥ 1` it is `column_length * w` bytes, which is at least `bind.buffer_length =
column_length`, with equality exactly when `w = 1` or `column_length = 0`. -/
theorem resize_storage_covers_capacity :
    (∀ (ndebug : Bool) (A : Allocator) (s : DynamicStorageString),
      s.base.column_length > s.base.bind.buffer_length →
      A.serves s.container s.base.column_length →
      ∃ post, s.resize ndebug A = .returned true post ∧
        post.container.storageBytes 1 = s.base.column_length ∧
        post.container.storageBytes 1 ≥ post.base.bind.buffer_length) ∧
    (∀ (V : Type) (w : Nat) (ndebug : Bool) (A : Allocator) (vinit : V)
        (s : DynamicStorageVector V),
      w ≥ 1 →
      s.base.column_length > s.base.bind.buffer_length →
      A.serves s.container s.base.column_length →
      ∃ post, s.resize ndebug A vinit = .returned true post ∧
        post.container.storageBytes w = s.base.column_length * w ∧
        post.container.storageBytes w ≥ post.base.bind.buffer_length ∧
        (post.container.storageBytes w = post.base.bind.buffer_length ↔
          (w = 1 ∨ s.base.column_length = 0))) := by
  constructor
  · intro ndebug A s hgt hserves
    obtain ⟨c, hc⟩ := container_resize_serves A nul s.container _ hserves
    have hsize := container_resize_size A nul s.container c _ hc
    refine ⟨_, string_resize_ok ndebug A s c (assertPasses_of_gt _ _ _ hgt) hc,
      ?_, ?_⟩
    · simp [Container.storageBytes, hsize]
    · simp [Container.storageBytes, hsize]
  · intro V w ndebug A vinit s hw hgt hserves
    obtain ⟨c, hc⟩ := container_resize_serves A vinit s.container _ hserves
    have hsize := container_resize_size A vinit s.container c _ hc
    refine ⟨_, vector_resize_ok ndebug A vinit s c
      (assertPasses_of_gt _ _ _ hgt) hc, ?_, ?_, ?_⟩
    · simp [Container.storageBytes, hsize]
    · simp only [Container.storageBytes, hsize]
      exact Nat.le_mul_of_pos_right _ hw
    · simp only [Container.storageBytes, hsize]
      constructor
      · intro heq
        by_cases h0 : s.base.column_length = 0
        · exact Or.inr h0
        · left
          have hpos : 0 < s.base.column_length := Nat.pos_of_ne_zero h0
          have h1 : s.base.column_length * w = s.base.column_length * 1 := by
            rw [Nat.mul_one]
            exact heq
          exact Nat.eq_of_mul_eq_mul_left hpos h1
      · rintro (h1 | h0)
        · rw [h1, Nat.mul_one]
        · rw [h0, Nat.zero_mul]

/-- Instance of C8 at the byte column with capacity 2 and reported length 4,
with elements of width 8: the storage has 32 bytes. -/
theorem resize_storage_covers_capacity_witness :
    (8 : Nat) ≥ 1 ∧
    bytesTruncated.base.column_length > bytesTruncated.base.bind.buffer_length ∧
    roomyAllocator.serves bytesTruncated.container bytesTruncated.base.column_length ∧
    ∃ post, bytesTruncated.resize false roomyAllocator 0 = .returned true post ∧
      post.container.storageBytes 8 = bytesTruncated.base.column_length * 8 ∧
      post.container.storageBytes 8 ≥ post.base.bind.buffer_length ∧
      (post.container.storageBytes 8 = post.base.bind.buffer_length ↔
        ((8 : Nat) = 1 ∨ bytesTruncated.base.column_length = 0)) :=
  ⟨by decide, by decide, by decide,
    resize_storage_covers_capacity.2 Nat 8 false roomyAllocator 0 bytesTruncated
      (by decide) (by decide) (by decide)⟩

/-! ## Construction -/

/-- C9: constructing a binder of any of the three kinds sets the length slot
`bind.length` of the binding to the address of the binder's `column_length` and
leaves the rest of the binding (in particular `buffer` and `buffer_length`) and
the backing object as they were; this holds for the primary template too, whose
`isDynamic` is `false`. -/
theorem ctor_redirects_length_slot :
    (∀ (T : Type) (addr : Ptr) (indet : Nat) (arg : T) (b : MYSQL_BIND),
      (DynamicStorageT.ctor addr indet arg b).1.base.bind = { b with length := addr } ∧
      (DynamicStorageT.ctor addr indet arg b).1.base.bind.length = addr ∧
      (DynamicStorageT.ctor addr indet arg b).1.base.bind.buffer = b.buffer ∧
      (DynamicStorageT.ctor addr indet arg b).1.base.bind.buffer_length = b.buffer_length ∧
      (DynamicStorageT.ctor addr indet arg b).2 = arg) ∧
    (∀ (addr : Ptr) (indet : Nat) (c : Container Char) (b : MYSQL_BIND),
      (DynamicStorageString.ctor addr indet c b).base.bind = { b with length := addr } ∧
      (DynamicStorageString.ctor addr indet c b).base.bind.length = addr ∧
      (DynamicStorageString.ctor addr indet c b).base.bind.buffer = b.buffer ∧
      (DynamicStorageString.ctor addr indet c b).base.bind.buffer_length = b.buffer_length ∧
      (DynamicStorageString.ctor addr indet c b).container = c) ∧
    (∀ (V : Type) (addr : Ptr) (indet : Nat) (c : Container V) (b : MYSQL_BIND),
      (DynamicStorageVector.ctor addr indet c b).base.bind = { b with length := addr } ∧
      (DynamicStorageVector.ctor addr indet c b).base.bind.length = addr ∧
      (DynamicStorageVector.ctor addr indet c b).base.bind.buffer = b.buffer ∧
      (DynamicStorageVector.ctor addr indet c b).base.bind.buffer_length = b.buffer_length ∧
      (DynamicStorageVector.ctor addr indet c b).container = c) ∧
    (∀ id, isDynamic (.other id) = false) :=
  ⟨fun _ _ _ _ _ => ⟨rfl, rfl, rfl, rfl, rfl⟩,
   fun _ _ _ _ => ⟨rfl, rfl, rfl, rfl, rfl⟩,
   fun _ _ _ _ _ => ⟨rfl, rfl, rfl, rfl, rfl⟩,
   fun _ => rfl⟩

/-! ## Growth is measured against the binding -/

/-- C10: `resize()` compares `column_length` with `bind.buffer_length`, not with
the container's size.  For both dynamic backings and every state in which the
container's size is at most `bind.buffer_length` and `column_length >
bind.buffer_length` (request served), the container is strictly larger after
`resize()` and its first old-size elements are the old elements.  Without the
hypothesis on the size this fails: a container whose size exceeds
`column_length` while `bind.buffer_length < column_length` passes the check and
is cut to `column_length` elements, as is the text container of 8 characters
with `bind.buffer_length = 2` and `column_length = 5`. -/
theorem resize_grows_when_in_sync :
    (∀ (ndebug : Bool) (A : Allocator) (s : DynamicStorageString),
      s.container.size ≤ s.base.bind.buffer_length →
      s.base.column_length > s.base.bind.buffer_length →
      A.serves s.container s.base.column_length →
      ∃ post, s.resize ndebug A = .returned true post ∧
        post.container.size > s.container.size ∧
        post.container.elems.take s.container.size = s.container.elems) ∧
    (∀ (V : Type) (ndebug : Bool) (A : Allocator) (vinit : V) (s : DynamicStorageVector V),
      s.container.size ≤ s.base.bind.buffer_length →
      s.base.column_length > s.base.bind.buffer_length →
      A.serves s.container s.base.column_length →
      ∃ post, s.resize ndebug A vinit = .returned true post ∧
        post.container.size > s.container.size ∧
        post.container.elems.take s.container.size = s.container.elems) ∧
    (∀ (ndebug : Bool) (A : Allocator) (s : DynamicStorageString),
      s.container.size > s.base.column_length →
      s.base.column_length > s.base.bind.buffer_length →
      ∃ post, s.resize ndebug A = .returned true post ∧
        post.container.size = s.base.column_length ∧
        post.container.size < s.container.size) ∧
    (∀ (V : Type) (ndebug : Bool) (A : Allocator) (vinit : V) (s : DynamicStorageVector V),
      s.container.size > s.base.column_length →
      s.base.column_length > s.base.bind.buffer_length →
      ∃ post, s.resize ndebug A vinit = .returned true post ∧
        post.container.size = s.base.column_length ∧
        post.container.size < s.container.size) ∧
    (textOversized.container.size > textOversized.base.column_length ∧
      textOversized.base.column_length > textOversized.base.bind.buffer_length ∧
      ∃ post, textOversized.resize false roomyAllocator = .returned true post ∧
        post.container.size = textOversized.base.column_length ∧
        post.container.size < textOversized.container.size) := by
  refine ⟨?_, ?_, ?_, ?_, ?_⟩
  · intro ndebug A s hsync hgt hserves
    obtain ⟨c, hc⟩ := container_resize_serves A nul s.container _ hserves
    have hsize := container_resize_size A nul s.container c _ hc
    have hkeep := container_resize_keeps A nul s.container c _ (by omega) hc
    refine ⟨_, string_resize_ok ndebug A s c (assertPasses_of_gt _ _ _ hgt) hc,
      ?_, hkeep⟩
    show c.size > s.container.size
    omega
  · intro V ndebug A vinit s hsync hgt hserves
    obtain ⟨c, hc⟩ := container_resize_serves A vinit s.container _ hserves
    have hsize := container_resize_size A vinit s.container c _ hc
    have hkeep := container_resize_keeps A vinit s.container c _ (by omega) hc
    refine ⟨_, vector_resize_ok ndebug A vinit s c
      (assertPasses_of_gt _ _ _ hgt) hc, ?_, hkeep⟩
    show c.size > s.container.size
    omega
  · intro ndebug A s hbig hgt
    obtain ⟨c, hc⟩ := container_resize_serves A nul s.container _ (Or.inl (Nat.le_of_lt hbig))
    have hsize := container_resize_size A nul s.container c _ hc
    refine ⟨_, string_resize_ok ndebug A s c (assertPasses_of_gt _ _ _ hgt) hc,
      hsize, ?_⟩
    show c.size < s.container.size
    omega
  · intro V ndebug A vinit s hbig hgt
    obtain ⟨c, hc⟩ := container_resize_serves A vinit s.container _ (Or.inl (Nat.le_of_lt hbig))
    have hsize := container_resize_size A vinit s.container c _ hc
    refine ⟨_, vector_resize_ok ndebug A vinit s c
      (assertPasses_of_gt _ _ _ hgt) hc, hsize, ?_⟩
    show c.size < s.container.size
    omega
  · refine ⟨by decide, by decide, ?_⟩
    refine ⟨{ base := { bind := { textOversized.base.bind with buffer_length := 5 },
                        column_length := 5 },
              container := { data := 1000, elems := ['a', 'b', 'c', 'd', 'e'] } }, ?_, ?_, ?_⟩
    · decide
    · decide
    · decide

/-- Instance of C10 at the byte column holding 2 bytes with capacity 2 and
reported length 4. -/
theorem resize_grows_when_in_sync_witness :
    bytesTruncated.container.size ≤ bytesTruncated.base.bind.buffer_length ∧
    bytesTruncated.base.column_length > bytesTruncated.base.bind.buffer_length ∧
    roomyAllocator.serves bytesTruncated.container bytesTruncated.base.column_length ∧
    ∃ post, bytesTruncated.resize false roomyAllocator 0 = .returned true post ∧
      post.container.size > bytesTruncated.container.size ∧
      post.container.elems.take bytesTruncated.container.size =
        bytesTruncated.container.elems :=
  ⟨by decide, by decide, by decide,
    resize_grows_when_in_sync.2.1 Nat false roomyAllocator 0 bytesTruncated
      (by decide) (by decide) (by decide)⟩

end SuperiorMySqlpp
